import Mathlib

/-!
# Verification of the SOME inference core (`inference/base_infer.py`)

Shallow embedding of the checkpoint-resolution logic and the abstract
three-stage inference pipeline of `BaseInference`:

* deserialized Python objects (`torch.load` results) are modelled by the
  inductive type `PyObj`: a mapping (`dict`, an ordered association list
  with distinct keys, which is the representation invariant of a Python
  `dict`/`OrderedDict`), a tensor, or any other non-mapping object;
* `extract_state_dict` embeds the `if/elif/elif/else` shape classification
  of `BaseInference.build_model` (lines 28-42);
* `load_state_dict` models the strict parameter application performed by
  `model.load_state_dict(state_dict, strict=True)`;
* `infer` embeds the sequential driving loop `BaseInference.infer`
  (lines 56-63), generic over the abstract stages `preprocess`,
  `forward_model` and `postprocess`, with a raised Python exception
  modelled as an `Except.error`.
-/

/-- A deserialized Python object, as produced by `torch.load`.  A `dict`
holds its entries as an ordered association list (Python dicts preserve
insertion order and have distinct keys); `tensor` is an opaque tensor
value; `obj` is any other, non-mapping object. -/
inductive PyObj where
  | dict (entries : List (String × PyObj))
  | tensor (id : Nat)
  | obj (id : Nat)

/-- Python `s.startswith(p)` on strings, modelled on the character lists. -/
def pyStartsWith (s p : String) : Bool :=
  p.data.isPrefixOf s.data

/-- Python slicing `s[n:]` on strings, modelled on the character lists. -/
def pySliceFrom (s : String) (n : Nat) : String :=
  ⟨s.data.drop n⟩

/-- The dict comprehension of `build_model` lines 31-34: keep exactly the
entries of the loaded `state_dict` whose key starts with `'model.'`
(`prefix_in_ckpt = 'model'`), and strip those 6 characters
(`k[len(prefix_in_ckpt) + 1:]`) from the kept keys. -/
def stripModelEntries (sdEntries : List (String × PyObj)) : List (String × PyObj) :=
  sdEntries.filterMap fun kv =>
    if pyStartsWith kv.1 "model." then some (pySliceFrom kv.1 6, kv.2) else none

/-- The failures `BaseInference.build_model` can raise:
`unsupportedFormat` is the `RuntimeError` of line 42; `attributeError` is
the `AttributeError` Python raises when `ckpt['state_dict'].items()` is
called on a non-mapping; `loadMismatch` is the strict-mode error of
`model.load_state_dict` carrying the missing and the unexpected keys. -/
inductive BuildError where
  | unsupportedFormat (model_path : String)
  | attributeError
  | loadMismatch (missing : List String) (unexpected : List String)

/-- The user-visible message attached to each failure; for the
unsupported-format error this is exactly the `RuntimeError` text of
line 42, which interpolates the checkpoint path. -/
def buildErrorMessage : BuildError → String
  | BuildError.unsupportedFormat model_path =>
      "Unsupported checkpoint format at " ++ model_path
  | BuildError.attributeError =>
      "object has no attribute \x27items\x27"
  | BuildError.loadMismatch missing unexpected =>
      "Error(s) in loading state_dict: missing keys "
        ++ String.intercalate ", " missing
        ++ "; unexpected keys " ++ String.intercalate ", " unexpected

/-- The checkpoint shape classification of `build_model` lines 28-42:
  (i)   `isinstance(ckpt, dict) and 'state_dict' in ckpt` → keep the
        `'model.'`-prefixed entries of `ckpt['state_dict']`, stripped
        (an `AttributeError` if that value is not a mapping);
  (ii)  `'model' in ckpt and isinstance(ckpt['model'], (dict, OrderedDict))`
        → use `ckpt['model']` as-is;
  (iii) any other mapping → use the whole mapping as the raw state dict;
  otherwise → `RuntimeError(f'Unsupported checkpoint format at ...')`. -/
def extract_state_dict (ckpt : PyObj) (model_path : String) :
    Except BuildError (List (String × PyObj)) :=
  match ckpt with
  | PyObj.dict entries =>
    match entries.lookup "state_dict" with
    | some sd =>
      match sd with
      | PyObj.dict sdEntries => Except.ok (stripModelEntries sdEntries)
      | _ => Except.error BuildError.attributeError
    | none =>
      match entries.lookup "model" with
      | some (PyObj.dict m) => Except.ok m
      | _ => Except.ok entries
  | _ => Except.error (BuildError.unsupportedFormat model_path)

/-- Modelled from the spec: `torch.nn.Module.load_state_dict(state_dict,
strict=True)` (line 43) is PyTorch library code, not part of this
repository's sources.  Per §4.3 of the spec it is a strict contract:
every parameter the architecture declares must be present in the mapping
and every mapping entry must be consumed, or the operation fails with a
mismatch error naming the missing and the unexpected keys.
`archKeys` are the parameter names the constructed architecture declares. -/
def load_state_dict (archKeys : List String) (sd : List (String × PyObj)) :
    Except BuildError Unit :=
  let sdKeys := sd.map Prod.fst
  let missing := archKeys.filter fun k => decide (¬ k ∈ sdKeys)
  let unexpected := sdKeys.filter fun k => decide (¬ k ∈ archKeys)
  if missing = [] ∧ unexpected = [] then Except.ok ()
  else Except.error (BuildError.loadMismatch missing unexpected)

/-- The constructed, weight-loaded architecture instance.  The dynamic
class resolution (`build_object_from_class_name`, defined in `../utils`
outside these sources) is abstracted by the list of parameter names the
resolved architecture declares. -/
structure Model where
  keys : List String

/-- `BaseInference.build_model` (lines 23-45): classify the deserialized
checkpoint, extract the parameter mapping, and apply it strictly onto the
constructed architecture; any failure aborts construction and no model
instance is produced. -/
def build_model (archKeys : List String) (ckpt : PyObj) (model_path : String) :
    Except BuildError Model := do
  let sd ← extract_state_dict ckpt model_path
  let _ ← load_state_dict archKeys sd
  Except.ok { keys := archKeys }

/-- The configuration keys `BaseInference` consumes (`config['model_cls']`,
`config['hop_size']`, `config['audio_sample_rate']`); the numeric values
are Python floats, modelled by `Float` (IEEE 754 double, as in Python). -/
structure Config where
  model_cls : String
  hop_size : Float
  audio_sample_rate : Float

/-- The state of a constructed `BaseInference` object: the fields assigned
in `__init__` (lines 14-21).  Nothing in the source ever reassigns any of
these fields after construction. -/
structure BaseInference where
  config : Config
  model_path : String
  device : String
  timestep : Float
  model : Model

/-- `BaseInference.__init__` (lines 14-21): store the configuration, the
checkpoint path and the device, compute `timestep = config['hop_size'] /
config['audio_sample_rate']` once, and build the model; a failure of
`build_model` propagates and no pipeline object is produced. -/
def base_inference_init (config : Config) (model_path : String) (device : String)
    (archKeys : List String) (ckpt : PyObj) : Except BuildError BaseInference := do
  let m ← build_model archKeys ckpt model_path
  Except.ok { config := config, model_path := model_path, device := device,
              timestep := config.hop_size / config.audio_sample_rate, model := m }

/-- An opaque numpy array value (`np.ndarray`). -/
structure NDArray where
  id : Nat

/-- One entry of the inference result: a mapping from named output
channels to numeric array data (`Dict[str, np.ndarray]`). -/
abbrev ResultEntry := List (String × NDArray)

/-- One iteration of the driving loop of `BaseInference.infer`
(lines 59-61): `preprocess`, then `forward_model`, then `postprocess`; a
raised exception at any stage is an `Except.error`.  The three stages are
abstract in `BaseInference` (subclasses supply them), so they are
parameters of the embedding. -/
def process_item {W A B R E : Type} (preprocess : W → Except E A)
    (forward_model : A → Except E B) (postprocess : B → Except E R)
    (w : W) : Except E R := do
  let model_in ← preprocess w
  let model_out ← forward_model model_in
  postprocess model_out

/-- The body of the `for w in tqdm.tqdm(waveforms)` loop: process one
item and append its result to the accumulated `results` list. -/
def infer_step {W A B R E : Type} (preprocess : W → Except E A)
    (forward_model : A → Except E B) (postprocess : B → Except E R)
    (results : List R) (w : W) : Except E (List R) :=
  match process_item preprocess forward_model postprocess w with
  | Except.ok res => Except.ok (results ++ [res])
  | Except.error e => Except.error e

/-- `BaseInference.infer` (lines 56-63): starting from `results = []`,
run the loop body over the waveforms in input order and return the
accumulated list; a raised exception propagates immediately. -/
def infer {W A B R E : Type} (preprocess : W → Except E A)
    (forward_model : A → Except E B) (postprocess : B → Except E R)
    (waveforms : List W) : Except E (List R) :=
  waveforms.foldlM (infer_step preprocess forward_model postprocess) []

/-! ## Helper lemmas about `Except` and the driving loop -/

theorem except_ok_bind {E α β : Type} (a : α) (f : α → Except E β) :
    (Except.ok a >>= f) = f a := rfl

theorem except_error_bind {E α β : Type} (e : E) (f : α → Except E β) :
    ((Except.error e : Except E α) >>= f) = Except.error e := rfl

theorem except_map_ok {E α β : Type} (f : α → β) (a : α) :
    (Except.ok a : Except E α).map f = Except.ok (f a) := rfl

theorem except_map_error {E α β : Type} (f : α → β) (e : E) :
    (Except.error e : Except E α).map f = Except.error e := rfl

/-- The loop accumulator only ever grows by appending on the right:
running the loop from accumulator `acc` is running it from `[]` and
prepending `acc` to the outcome. -/
theorem foldlM_infer_step_shift {W A B R E : Type} (p : W → Except E A)
    (f : A → Except E B) (g : B → Except E R) (ws : List W) (acc : List R) :
    List.foldlM (infer_step p f g) acc ws
      = (List.foldlM (infer_step p f g) ([] : List R) ws).map fun rs => acc ++ rs := by
  induction ws generalizing acc with
  | nil =>
    show Except.ok acc = Except.map (fun rs => acc ++ rs) (Except.ok ([] : List R))
    rw [except_map_ok]
    simp
  | cons w ws ih =>
    rw [List.foldlM_cons, List.foldlM_cons]
    cases h : process_item p f g w with
    | error e => simp [infer_step, h, except_error_bind, except_map_error]
    | ok r =>
      simp only [infer_step, h, except_ok_bind, List.nil_append]
      rw [ih (acc ++ [r]), ih [r]]
      cases List.foldlM (infer_step p f g) ([] : List R) ws with
      | error e => simp [except_map_error]
      | ok rs => simp [except_map_ok, List.append_assoc]

/-- Unfolding one iteration of `infer`: process the head item; on failure
the failure is the whole answer, on success the result is consed onto the
outcome for the remaining items. -/
theorem infer_cons {W A B R E : Type} (p : W → Except E A) (f : A → Except E B)
    (g : B → Except E R) (w : W) (ws : List W) :
    infer p f g (w :: ws)
      = match process_item p f g w with
        | Except.error e => Except.error e
        | Except.ok r => (infer p f g ws).map fun rs => r :: rs := by
  unfold infer
  rw [List.foldlM_cons]
  cases h : process_item p f g w with
  | error e => simp [infer_step, h, except_error_bind]
  | ok r =>
    simp only [infer_step, h, except_ok_bind, List.nil_append]
    rw [foldlM_infer_step_shift]
    cases List.foldlM (infer_step p f g) ([] : List R) ws with
    | error e => simp [except_map_error]
    | ok rs => simp [except_map_ok]

/-! ## Claims about the driving loop (`BaseInference.infer`) -/

/-- C8: `infer` applied to the empty input sequence returns the empty
result sequence and never invokes the `preprocess`, `forward_model` or
`postprocess` stage: the result is `ok []` for arbitrary stage functions,
in particular for stages that fail on every input. -/
theorem infer_nil_eq {W A B R E : Type} (preprocess : W → Except E A)
    (forward_model : A → Except E B) (postprocess : B → Except E R) :
    infer preprocess forward_model postprocess ([] : List W) = Except.ok ([] : List R) :=
  rfl

/-- C5: `infer` is all-or-nothing.  If every item before `w` processes
successfully and some stage raises on `w`, the whole call propagates that
failure: no partial result for the already-processed items is returned,
and the items after `w` are irrelevant to the outcome. -/
theorem infer_all_or_nothing {W A B R E : Type} (preprocess : W → Except E A)
    (forward_model : A → Except E B) (postprocess : B → Except E R)
    (pre : List W) (w : W) (post : List W) (e : E)
    (hpre : ∀ x ∈ pre, ∃ r, process_item preprocess forward_model postprocess x = Except.ok r)
    (hw : process_item preprocess forward_model postprocess w = Except.error e) :
    infer preprocess forward_model postprocess (pre ++ w :: post) = Except.error e := by
  induction pre with
  | nil =>
    rw [List.nil_append, infer_cons, hw]
  | cons x pre ih =>
    obtain ⟨r, hr⟩ := hpre x (List.mem_cons_self x pre)
    rw [List.cons_append, infer_cons, hr]
    rw [ih fun y hy => hpre y (List.mem_cons_of_mem x hy)]
    rfl

/-- Example stages for the loop claims: the identity on prepared /
raw-output values, a `preprocess` that raises on the waveform `2`, and a
`postprocess` producing a one-channel result mapping. -/
def stage_id : Nat → Except String Nat := fun n => Except.ok n

/-- A `preprocess` stage that raises on the waveform `2`. -/
def stage_fail_on_two : Nat → Except String Nat := fun n =>
  if n = 2 then Except.error "boom" else Except.ok n

/-- A `postprocess` stage producing a one-channel result mapping. -/
def stage_one_channel : Nat → Except String ResultEntry := fun n =>
  Except.ok [("pitch", NDArray.mk n)]

theorem infer_all_or_nothing_witness :
    infer stage_fail_on_two stage_id stage_id ([1] ++ 2 :: []) = Except.error "boom" :=
  infer_all_or_nothing stage_fail_on_two stage_id stage_id [1] 2 [] "boom"
    (by
      intro x hx
      have hx1 : x = 1 := by simpa using hx
      subst hx1
      exact ⟨1, rfl⟩)
    rfl

/-- C6: on success, `infer` returns one entry per input waveform, in input
order: the result list has the length of the input list and its `i`-th
entry is exactly the `preprocess → forward_model → postprocess` outcome of
the `i`-th waveform; each entry is a mapping from named output channels to
numeric array data (`ResultEntry`, per the declared signature
`infer(...) -> List[Dict[str, np.ndarray]]`). -/
theorem infer_result_per_waveform {W A B E : Type} (preprocess : W → Except E A)
    (forward_model : A → Except E B) (postprocess : B → Except E ResultEntry)
    (ws : List W) (rs : List ResultEntry)
    (h : infer preprocess forward_model postprocess ws = Except.ok rs) :
    rs.length = ws.length ∧
      ∀ i (hw : i < ws.length) (hr : i < rs.length),
        process_item preprocess forward_model postprocess (ws.get ⟨i, hw⟩)
          = Except.ok (rs.get ⟨i, hr⟩) := by
  induction ws generalizing rs with
  | nil =>
    have hrs : rs = [] := by
      have h0 : Except.ok ([] : List ResultEntry) = Except.ok rs := h
      cases h0
      rfl
    subst hrs
    exact ⟨rfl, fun i hw _ => absurd hw (by simp)⟩
  | cons w ws ih =>
    rw [infer_cons] at h
    cases hp : process_item preprocess forward_model postprocess w with
    | error e =>
      simp only [hp] at h
      exact Except.noConfusion h
    | ok r =>
      simp only [hp] at h
      cases hrest : infer preprocess forward_model postprocess ws with
      | error e =>
        rw [hrest, except_map_error] at h
        exact Except.noConfusion h
      | ok rs' =>
        rw [hrest, except_map_ok] at h
        cases h
        obtain ⟨hlen, hget⟩ := ih rs' hrest
        refine ⟨by simp [hlen], ?_⟩
        intro i hw hr
        cases i with
        | zero => simpa using hp
        | succ j => simpa using hget j (by simpa using hw) (by simpa using hr)

theorem infer_result_per_waveform_witness :
    ([[("pitch", NDArray.mk 5)]] : List ResultEntry).length = ([5] : List Nat).length ∧
      process_item stage_id stage_id stage_one_channel (5 : Nat)
        = Except.ok [("pitch", NDArray.mk 5)] :=
  ⟨(infer_result_per_waveform stage_id stage_id stage_one_channel [5]
      [[("pitch", NDArray.mk 5)]] rfl).1,
   (infer_result_per_waveform stage_id stage_id stage_one_channel [5]
      [[("pitch", NDArray.mk 5)]] rfl).2 0 (by decide) (by decide)⟩

/-! ## Claims about checkpoint shape classification -/

/-- The outcome of shape (i) alone: strip-and-keep the `'model.'` entries
of the value stored under `'state_dict'`, or an `AttributeError` when
that value is not a mapping. -/
def shape_one_outcome (sd : PyObj) : Except BuildError (List (String × PyObj)) :=
  match sd with
  | PyObj.dict sdEntries => Except.ok (stripModelEntries sdEntries)
  | _ => Except.error BuildError.attributeError

/-- C2: classification priority.  As soon as a checkpoint mapping has a
`'state_dict'` key, the loader's outcome is exactly the shape (i) outcome
for the stored value — a function of that value alone, so the presence or
content of a `'model'` key (shape (ii)) or the rest of the mapping
(shape (iii)) can never influence the result. -/
theorem state_dict_priority (entries : List (String × PyObj)) (sd : PyObj)
    (model_path : String) (h : entries.lookup "state_dict" = some sd) :
    extract_state_dict (PyObj.dict entries) model_path = shape_one_outcome sd := by
  simp only [extract_state_dict, shape_one_outcome, h]

theorem state_dict_priority_witness :
    extract_state_dict
        (PyObj.dict
          [("state_dict", PyObj.dict [("model.w", PyObj.tensor 0)]),
           ("model", PyObj.dict [("w", PyObj.tensor 1)])])
        "both.ckpt"
      = Except.ok [("w", PyObj.tensor 0)] :=
  state_dict_priority
    [("state_dict", PyObj.dict [("model.w", PyObj.tensor 0)]),
     ("model", PyObj.dict [("w", PyObj.tensor 1)])]
    (PyObj.dict [("model.w", PyObj.tensor 0)]) "both.ckpt" rfl

/-- C10: shape (ii) requires the `'model'` value to be a mapping.  For a
checkpoint mapping with no `'state_dict'` key whose `'model'` value is not
a mapping, the whole checkpoint mapping — `'model'` entry included — is
used as the raw parameter mapping (shape (iii)); it is neither unwrapped
nor rejected. -/
theorem model_key_non_mapping (entries : List (String × PyObj)) (v : PyObj)
    (model_path : String) (h1 : entries.lookup "state_dict" = none)
    (h2 : entries.lookup "model" = some v) (h3 : ∀ m, v ≠ PyObj.dict m) :
    extract_state_dict (PyObj.dict entries) model_path = Except.ok entries := by
  cases v with
  | dict m => exact absurd rfl (h3 m)
  | tensor id => simp only [extract_state_dict, h1, h2]
  | obj id => simp only [extract_state_dict, h1, h2]

theorem model_key_non_mapping_witness :
    extract_state_dict
        (PyObj.dict [("model", PyObj.tensor 4), ("linear.weight", PyObj.tensor 5)])
        "exported.ckpt"
      = Except.ok [("model", PyObj.tensor 4), ("linear.weight", PyObj.tensor 5)] :=
  model_key_non_mapping
    [("model", PyObj.tensor 4), ("linear.weight", PyObj.tensor 5)]
    (PyObj.tensor 4) "exported.ckpt" rfl rfl
    (fun _ h => PyObj.noConfusion h)

/-- C3: a checkpoint artifact that is not a mapping at all makes model
building fail with the unsupported-format `RuntimeError` of line 42, whose
message names the checkpoint path; no other failure and no model instance
can result. -/
theorem non_mapping_checkpoint (archKeys : List String) (ckpt : PyObj)
    (model_path : String) (h : ∀ entries, ckpt ≠ PyObj.dict entries) :
    build_model archKeys ckpt model_path
        = Except.error (BuildError.unsupportedFormat model_path) ∧
      buildErrorMessage (BuildError.unsupportedFormat model_path)
        = "Unsupported checkpoint format at " ++ model_path := by
  refine ⟨?_, rfl⟩
  cases ckpt with
  | dict entries => exact absurd rfl (h entries)
  | tensor id => rfl
  | obj id => rfl

theorem non_mapping_checkpoint_witness :
    build_model [] (PyObj.tensor 7) "weights.ckpt"
        = Except.error (BuildError.unsupportedFormat "weights.ckpt") ∧
      buildErrorMessage (BuildError.unsupportedFormat "weights.ckpt")
        = "Unsupported checkpoint format at " ++ "weights.ckpt" :=
  non_mapping_checkpoint [] (PyObj.tensor 7) "weights.ckpt"
    (fun _ h => PyObj.noConfusion h)

/-! ## Claim about the derived per-frame duration -/

/-- C7: whenever construction succeeds, the pipeline's `timestep` field is
exactly `config['hop_size'] / config['audio_sample_rate']` (IEEE 754
double division, as in Python), computed from the stored configuration at
construction; the embedding is pure and no code in the source ever
reassigns the field, so the value is fixed for the pipeline's lifetime. -/
theorem timestep_is_hop_over_rate (config : Config) (model_path device : String)
    (archKeys : List String) (ckpt : PyObj) (inst : BaseInference)
    (h : base_inference_init config model_path device archKeys ckpt = Except.ok inst) :
    inst.timestep = config.hop_size / config.audio_sample_rate
      ∧ inst.config = config := by
  unfold base_inference_init at h
  cases hb : build_model archKeys ckpt model_path with
  | error e =>
    rw [hb] at h
    exact Except.noConfusion h
  | ok m =>
    rw [hb] at h
    cases h
    exact ⟨rfl, rfl⟩

/-- The example configuration of the spec's §8: `hop_size=512`,
`audio_sample_rate=44100`. -/
def exampleConfig : Config :=
  { model_cls := "modules.model.Gmidi_conform", hop_size := 512.0,
    audio_sample_rate := 44100.0 }

/-- A `BaseInference` built from `exampleConfig`, a trivial architecture
with no declared parameters and an empty raw-mapping checkpoint. -/
def exampleInference : BaseInference :=
  { config := exampleConfig, model_path := "model.ckpt", device := "cpu",
    timestep := exampleConfig.hop_size / exampleConfig.audio_sample_rate,
    model := { keys := [] } }

theorem timestep_is_hop_over_rate_witness :
    exampleInference.timestep = (512.0 : Float) / 44100.0
      ∧ exampleInference.config = exampleConfig :=
  timestep_is_hop_over_rate exampleConfig "model.ckpt" "cpu" [] (PyObj.dict [])
    exampleInference rfl

/-! ## String helpers for the prefix-stripping claim -/

theorem string_data_inj {s t : String} (h : s.data = t.data) : s = t := by
  cases s
  cases t
  cases h
  rfl

theorem string_append_data (s t : String) : (s ++ t).data = s.data ++ t.data := by
  cases s
  cases t
  rfl

/-- Membership in the stripped mapping: `(k, v)` is kept exactly when the
original `state_dict` holds `v` under the key `"model." ++ k`. -/
theorem mem_stripModelEntries (sdEntries : List (String × PyObj)) (k : String) (v : PyObj) :
    (k, v) ∈ stripModelEntries sdEntries ↔ ("model." ++ k, v) ∈ sdEntries := by
  constructor
  · intro hmem
    obtain ⟨⟨k0, v0⟩, hin, hf⟩ := List.mem_filterMap.mp hmem
    cases hs : pyStartsWith k0 "model." with
    | false => simp [stripModelEntries, hs] at hf
    | true =>
      simp only [hs, if_true] at hf
      obtain ⟨hk, hv⟩ : pySliceFrom k0 6 = k ∧ v0 = v := by
        simpa using hf
      have hpre : ("model." : String).data <+: k0.data := by
        simpa [pyStartsWith, List.isPrefixOf_iff_prefix] using hs
      obtain ⟨t, ht⟩ := hpre
      have h6 : ("model." : String).data.length = 6 := rfl
      have hklist : k.data = t := by
        have hdrop : k.data = k0.data.drop 6 := by
          rw [← hk]
          rfl
        rw [hdrop, ← ht, ← h6, List.drop_left]
      have hk0 : k0 = "model." ++ k := by
        apply string_data_inj
        rw [string_append_data, ← ht, hklist]
      rw [← hk0, ← hv]
      exact hin
  · intro hmem
    refine List.mem_filterMap.mpr ⟨("model." ++ k, v), hmem, ?_⟩
    have hs : pyStartsWith ("model." ++ k) "model." = true := by
      rw [pyStartsWith, List.isPrefixOf_iff_prefix, string_append_data]
      exact List.prefix_append _ _
    have hslice : pySliceFrom ("model." ++ k) 6 = k := by
      apply string_data_inj
      show (("model." ++ k).data).drop 6 = k.data
      have h6 : ("model." : String).data.length = 6 := rfl
      rw [string_append_data, ← h6, List.drop_left]
    simp only [hs, if_true, hslice]

/-- C1: for a checkpoint mapping with a `'state_dict'` key holding a
mapping, the loader returns exactly the entries of that nested mapping
whose keys start with `'model.'`, with that prefix stripped, and no other
entries: `(k, v)` is in the result precisely when `("model." ++ k, v)` is
in the nested mapping. -/
theorem state_dict_extraction (entries sdEntries : List (String × PyObj))
    (model_path : String)
    (h : entries.lookup "state_dict" = some (PyObj.dict sdEntries)) :
    extract_state_dict (PyObj.dict entries) model_path
        = Except.ok (stripModelEntries sdEntries) ∧
      ∀ k v, (k, v) ∈ stripModelEntries sdEntries ↔ ("model." ++ k, v) ∈ sdEntries := by
  refine ⟨?_, fun k v => mem_stripModelEntries sdEntries k v⟩
  simp only [extract_state_dict, h]

/-- The example `state_dict` content of the spec's §8:
`{"model.linear.weight": W, "other.x": Y}`. -/
def exampleStateDict : List (String × PyObj) :=
  [("model.linear.weight", PyObj.tensor 0), ("other.x", PyObj.tensor 1)]

theorem state_dict_extraction_witness :
    extract_state_dict (PyObj.dict [("state_dict", PyObj.dict exampleStateDict)])
        "some.ckpt"
      = Except.ok [("linear.weight", PyObj.tensor 0)] ∧
      (("linear.weight", PyObj.tensor 0) ∈ stripModelEntries exampleStateDict
        ↔ ("model." ++ "linear.weight", PyObj.tensor 0) ∈ exampleStateDict) := by
  have h := state_dict_extraction [("state_dict", PyObj.dict exampleStateDict)]
    exampleStateDict "some.ckpt" rfl
  exact ⟨h.1.trans rfl, h.2 "linear.weight" (PyObj.tensor 0)⟩

/-! ## Claims about strict parameter application -/

/-- C4: strict application.  If the extracted parameter mapping misses a
key the architecture declares, or holds a key the architecture does not
declare, model building fails with a mismatch error carrying exactly the
missing and the unexpected keys — the offending key among them — and no
model instance is produced. -/
theorem strict_load_mismatch (archKeys : List String) (ckpt : PyObj)
    (model_path : String) (sd : List (String × PyObj)) (k : String)
    (hex : extract_state_dict ckpt model_path = Except.ok sd)
    (hk : (k ∈ archKeys ∧ ¬ k ∈ sd.map Prod.fst)
        ∨ (k ∈ sd.map Prod.fst ∧ ¬ k ∈ archKeys)) :
    build_model archKeys ckpt model_path
        = Except.error (BuildError.loadMismatch
            (archKeys.filter fun x => decide (¬ x ∈ sd.map Prod.fst))
            ((sd.map Prod.fst).filter fun x => decide (¬ x ∈ archKeys))) ∧
      (k ∈ (archKeys.filter fun x => decide (¬ x ∈ sd.map Prod.fst))
        ∨ k ∈ ((sd.map Prod.fst).filter fun x => decide (¬ x ∈ archKeys))) ∧
      ∀ m, build_model archKeys ckpt model_path ≠ Except.ok m := by
  have hkmem : k ∈ (archKeys.filter fun x => decide (¬ x ∈ sd.map Prod.fst))
      ∨ k ∈ ((sd.map Prod.fst).filter fun x => decide (¬ x ∈ archKeys)) := by
    cases hk with
    | inl h => exact Or.inl (List.mem_filter.mpr ⟨h.1, by simpa using h.2⟩)
    | inr h => exact Or.inr (List.mem_filter.mpr ⟨h.1, by simpa using h.2⟩)
  have hcond : ¬ ((archKeys.filter fun x => decide (¬ x ∈ sd.map Prod.fst)) = []
      ∧ ((sd.map Prod.fst).filter fun x => decide (¬ x ∈ archKeys)) = []) := by
    rintro ⟨hm, hu⟩
    cases hkmem with
    | inl hkm =>
      rw [hm] at hkm
      exact absurd hkm (List.not_mem_nil k)
    | inr hku =>
      rw [hu] at hku
      exact absurd hku (List.not_mem_nil k)
  have hload : load_state_dict archKeys sd
      = Except.error (BuildError.loadMismatch
          (archKeys.filter fun x => decide (¬ x ∈ sd.map Prod.fst))
          ((sd.map Prod.fst).filter fun x => decide (¬ x ∈ archKeys))) := by
    simp only [load_state_dict]
    rw [if_neg hcond]
  have hbuild : build_model archKeys ckpt model_path
      = Except.error (BuildError.loadMismatch
          (archKeys.filter fun x => decide (¬ x ∈ sd.map Prod.fst))
          ((sd.map Prod.fst).filter fun x => decide (¬ x ∈ archKeys))) := by
    simp only [build_model]
    rw [hex, except_ok_bind, hload, except_error_bind]
  refine ⟨hbuild, hkmem, fun m hm => ?_⟩
  rw [hbuild] at hm
  exact Except.noConfusion hm

theorem strict_load_mismatch_witness :
    build_model ["a.b"] (PyObj.dict []) "q.ckpt"
        = Except.error (BuildError.loadMismatch ["a.b"] []) ∧
      ("a.b" ∈ (["a.b"] : List String) ∨ "a.b" ∈ ([] : List String)) := by
  have h := strict_load_mismatch ["a.b"] (PyObj.dict []) "q.ckpt" [] "a.b" rfl
    (Or.inl ⟨by simp, by simp⟩)
  exact ⟨h.1, h.2.1⟩

/-- C9: classification as shape (i) depends only on the presence of the
`'state_dict'` key.  When the nested mapping has no `'model.'`-prefixed
key, the loader still commits to shape (i) and yields the empty parameter
mapping (it does not fall through to shapes (ii) or (iii)), so strict
application fails for any architecture declaring at least one parameter,
with every declared key reported missing. -/
theorem state_dict_empty_extraction (entries sdEntries : List (String × PyObj))
    (model_path : String) (archKeys : List String) (k : String) (ks : List String)
    (h : entries.lookup "state_dict" = some (PyObj.dict sdEntries))
    (hnone : ∀ kv ∈ sdEntries, pyStartsWith kv.1 "model." = false)
    (hkeys : archKeys = k :: ks) :
    extract_state_dict (PyObj.dict entries) model_path = Except.ok [] ∧
      build_model archKeys (PyObj.dict entries) model_path
        = Except.error (BuildError.loadMismatch archKeys []) := by
  have hstrip : stripModelEntries sdEntries = [] := by
    apply List.filterMap_eq_nil_iff.mpr
    intro kv hkv
    rw [hnone kv hkv]
    simp
  have hex : extract_state_dict (PyObj.dict entries) model_path = Except.ok [] := by
    simp only [extract_state_dict, h, hstrip]
  have hmiss :
      (archKeys.filter fun x =>
        decide (¬ x ∈ (([] : List (String × PyObj)).map Prod.fst))) = archKeys :=
    List.filter_eq_self.mpr fun a _ => by simp
  have hne : ¬ ((archKeys.filter fun x =>
        decide (¬ x ∈ (([] : List (String × PyObj)).map Prod.fst))) = []
      ∧ ((([] : List (String × PyObj)).map Prod.fst).filter fun x =>
        decide (¬ x ∈ archKeys)) = []) := by
    rw [hmiss]
    rintro ⟨hm, -⟩
    rw [hkeys] at hm
    exact List.noConfusion hm
  have hload : load_state_dict archKeys []
      = Except.error (BuildError.loadMismatch archKeys []) := by
    simp only [load_state_dict]
    rw [if_neg hne, hmiss]
    rfl
  refine ⟨hex, ?_⟩
  simp only [build_model]
  rw [hex, except_ok_bind, hload, except_error_bind]

theorem state_dict_empty_extraction_witness :
    extract_state_dict
        (PyObj.dict [("state_dict", PyObj.dict [("encoder.w", PyObj.tensor 3)])])
        "w.ckpt"
      = Except.ok [] ∧
      build_model ["w"]
          (PyObj.dict [("state_dict", PyObj.dict [("encoder.w", PyObj.tensor 3)])])
          "w.ckpt"
        = Except.error (BuildError.loadMismatch ["w"] []) :=
  state_dict_empty_extraction
    [("state_dict", PyObj.dict [("encoder.w", PyObj.tensor 3)])]
    [("encoder.w", PyObj.tensor 3)] "w.ckpt" ["w"] "w" [] rfl (by decide) rfl
